import Mathlib

/-!
Shallow embedding of the pypprof endpoint module (src/pypprof/net_http.py and
src/pypprof/fastapi.py) and proofs about its behaviour.

The Python module is small and mostly glue: it validates preconditions for the
heap endpoint, aggregates heap-snapshot statistics by stack trace, joins the
process argument vector for the cmdline endpoint, and dispatches time-bounded
CPU/wall profiling to the external zprofile samplers.  Pure computations are
embedded as Lean functions; Python exceptions are modelled with Except; the
side effects of a handler (garbage collection, snapshotting, touching the
external samplers) are recorded as an explicit effect trace.
-/

set_option autoImplicit false
set_option linter.unusedVariables false

namespace Pypprof

/-- Python runtime errors that can surface in the embedded code. -/
inductive PyError where
  | typeError (msg : String)
  | keyError
deriving DecidableEq, Repr

/-- One stack location as projected in build_heap_pprof:
the 4-tuple (frame.name, frame.filename, frame.firstlineno, frame.lineno). -/
structure Frame where
  name : String
  filename : String
  firstlineno : Int
  lineno : Int
deriving DecidableEq, Repr

/-- An ordered call stack: the tuple of frame 4-tuples built from a
statistic traceback. -/
abbrev Trace := List Frame

/-- One entry of snap.statistics("traceback"): a traceback plus the
occurrence count and the allocated byte size. -/
structure Stat where
  traceback : List Frame
  count : Int
  size : Int
deriving DecidableEq, Repr

/-- The trace key built for a statistic:
tuple((frame.name, frame.filename, frame.firstlineno, frame.lineno)
for frame in stat.traceback). -/
def statTrace (stat : Stat) : Trace :=
  stat.traceback.map fun frame =>
    { name := frame.name, filename := frame.filename,
      firstlineno := frame.firstlineno, lineno := frame.lineno }

/-- A Python tuple value (count, size), as stored into the samples dict by
samples[trace] = (stat.count, stat.size).  Python tuples are immutable. -/
structure PyTuple where
  fst : Int
  snd : Int
deriving DecidableEq, Repr

/-- Item assignment t[i] = v on a Python tuple: always raises TypeError,
since tuples are immutable. -/
def PyTuple.setItem (_ : PyTuple) (_ : Nat) (_ : Int) : Except PyError PyTuple :=
  .error (.typeError "tuple object does not support item assignment")

/-- A Python dict, modelled as an insertion-ordered association list. -/
abbrev Dict (α β : Type) := List (α × β)

/-- Dict lookup d[k], returning none where Python would raise KeyError. -/
def dictGet {α β : Type} [DecidableEq α] (d : Dict α β) (k : α) : Option β :=
  match d with
  | [] => none
  | (k0, v0) :: rest => if k0 = k then some v0 else dictGet rest k

/-- Dict assignment d[k] = v: overwrites in place if the key is present,
otherwise appends at the end (CPython preserves insertion order). -/
def dictSet {α β : Type} [DecidableEq α] (d : Dict α β) (k : α) (v : β) : Dict α β :=
  match d with
  | [] => [(k, v)]
  | (k0, v0) :: rest => if k0 = k then (k, v) :: rest else (k0, v0) :: dictSet rest k v

/-- One iteration of the aggregation loop in build_heap_pprof:

    trace = tuple((frame.name, frame.filename, frame.firstlineno, frame.lineno)
                  for frame in stat.traceback)
    try:
        samples[trace][0] += stat.count
        samples[trace][1] += stat.size
    except KeyError:
        samples[trace] = (stat.count, stat.size)

When the key is present, samples[trace] evaluates to the stored tuple and the
augmented assignments are item assignments on that tuple; only KeyError is
caught, so a TypeError raised by the item assignment propagates. -/
def heapAggStep (samples : Dict Trace PyTuple) (stat : Stat) :
    Except PyError (Dict Trace PyTuple) :=
  let trace := statTrace stat
  match dictGet samples trace with
  | some t => do
      let t1 ← t.setItem 0 (t.fst + stat.count)
      let t2 ← t1.setItem 1 (t1.snd + stat.size)
      .ok (dictSet samples trace t2)
  | none =>
      .ok (dictSet samples trace ⟨stat.count, stat.size⟩)

/-- The whole aggregation loop of build_heap_pprof, over the statistics list
in order, starting from the empty dict. -/
def heapAggregate (stats : List Stat) : Except PyError (Dict Trace PyTuple) :=
  stats.foldlM heapAggStep []

/-- An mprofile heap snapshot as consumed by build_heap_pprof: the statistics
grouped by traceback and the sampling rate. -/
structure Snapshot where
  stats : List Stat
  sample_rate : Int
deriving DecidableEq, Repr

/-- Modelled from the spec: pypprof/builder.py (the Builder that
build_heap_pprof populates and emits) is not under src/.  Per the spec the
profile wraps the aggregated samples together with the sample-type name, the
unit, the sampling period and the period type. -/
structure Profile where
  samples : Dict Trace PyTuple
  sampleTypeName : String
  unit : String
  period : Int
  periodType : Int
deriving DecidableEq, Repr

/-- Length-prefixed encoding of a text field of the profile. -/
def encodeString (s : String) : List Nat :=
  s.length :: s.data.map Char.toNat

/-- Sign-and-magnitude encoding of an integer field of the profile. -/
def encodeInt (i : Int) : List Nat :=
  [if i < 0 then 1 else 0, i.natAbs]

/-- Encoding of one frame: function name, file name, first line, current line. -/
def encodeFrame (f : Frame) : List Nat :=
  encodeString f.name ++ encodeString f.filename ++
    encodeInt f.firstlineno ++ encodeInt f.lineno

/-- Encoding of one aggregated sample: its trace followed by its two
measurement values (count, bytes). -/
def encodeSample (t : Trace) (v : PyTuple) : List Nat :=
  t.length :: ((t.map encodeFrame).flatten ++ encodeInt v.fst ++ encodeInt v.snd)

/-- Modelled from the spec: Builder.emit of pypprof/builder.py is not under
src/.  Per the spec it serializes the populated profile into a
schema-compliant byte stream, never failing and never dropping a sample; we
model the stream as the metadata followed by every aggregated sample. -/
def emit (p : Profile) : List Nat :=
  encodeString p.sampleTypeName ++ encodeString p.unit ++
    encodeInt p.period ++ encodeInt p.periodType ++
    p.samples.length :: (p.samples.map fun kv => encodeSample kv.1 kv.2).flatten

/-- build_heap_pprof(snap): aggregates snap.statistics("traceback") with
heapAggregate, then populates the Builder with
(samples, "HEAP", "bytes", snap.sample_rate, 1) and emits it.  A Python
exception raised by the aggregation loop propagates. -/
def build_heap_pprof (snap : Snapshot) : Except PyError (List Nat) := do
  let samples ← heapAggregate snap.stats
  .ok (emit { samples := samples, sampleTypeName := "HEAP", unit := "bytes",
              period := snap.sample_rate, periodType := 1 })

/-- Observable side effects of the endpoint handlers, in execution order. -/
inductive Effect where
  | gcCollect
  | takeSnapshot
  | newCPUProfiler
  | cpuProfile (duration_secs : Int)
  | wallProfile (duration_secs : Int)
deriving DecidableEq, Repr

/-- Result of the heap endpoint: the pprof bytes, the response written by
self.send_error(code, msg), or an uncaught Python exception. -/
inductive HeapResult where
  | ok (bytes : List Nat)
  | httpError (code : Nat) (msg : String)
  | pyError (e : PyError)
deriving DecidableEq, Repr

/-- def heap(self, run_gc=False), lines 64-76 of net_http.py:
run_gc triggers gc.collect() first; then the has_mprofile and
mprofile.is_tracing() checks each answer 412 via send_error; otherwise the
snapshot is taken and built into a pprof.  has_mprofile and is_tracing are
the module-level import flag and the tracer state; snap is the snapshot that
mprofile.take_snapshot() returns.  The first component is the effect trace. -/
def heap (has_mprofile : Bool) (is_tracing : Bool) (snap : Snapshot)
    (run_gc : Bool) : List Effect × HeapResult :=
  let gcEffects : List Effect := if run_gc then [.gcCollect] else []
  if !has_mprofile then
    (gcEffects, .httpError 412 "mprofile must be installed to enable heap profiling")
  else if !is_tracing then
    (gcEffects, .httpError 412 "Heap profiling is not enabled")
  else
    match build_heap_pprof snap with
    | .ok bytes => (gcEffects ++ [.takeSnapshot], .ok bytes)
    | .error e => (gcEffects ++ [.takeSnapshot], .pyError e)

/-- def profile(self, duration_secs=30), lines 51-55 of net_http.py:
constructs a fresh CPUProfiler and returns cpu_profiler.profile(duration_secs)
with no validation of duration_secs.  The external zprofile sampler is the
uninterpreted function ext; the first component is the effect trace. -/
def profileEndpoint (ext : Int → List Nat) (duration_secs : Int) :
    List Effect × List Nat :=
  ([.newCPUProfiler, .cpuProfile duration_secs], ext duration_secs)

/-- def wall(self, duration_secs=30), lines 58-61 of net_http.py: returns
_wall_profiler.profile(duration_secs) on the shared module-level WallProfiler,
with no validation of duration_secs. -/
def wallEndpoint (ext : Int → List Nat) (duration_secs : Int) :
    List Effect × List Nat :=
  ([.wallProfile duration_secs], ext duration_secs)

/-- def thread(self, debug=False), lines 79-82 of net_http.py: returns
thread_profiler.take_snapshot() and never reads debug.  The snapshot bytes
for the current set of running threads are the parameter. -/
def thread (take_snapshot_bytes : List Nat) (debug : Bool) : List Nat :=
  take_snapshot_bytes

/-- Python argument binding for def profile(self, duration_secs: int = 30):
self is a required positional parameter with no default, duration_secs
defaults to 30.  A call supplying no argument for self raises TypeError. -/
inductive BindResult where
  | bound (duration_secs : Int)
  | typeError (msg : String)
deriving DecidableEq, Repr

/-- Binding the positional arguments of a call to profile: selfArg is the
argument bound to self if one was supplied, durArg the one bound to
duration_secs. -/
def bindProfileCall (selfArg : Option Unit) (durArg : Option Int) : BindResult :=
  match selfArg with
  | none => .typeError "profile missing 1 required positional argument self"
  | some _ => .bound (durArg.getD 30)

/-- A starlette Response as built by handle_profile. -/
structure HttpResponse where
  body : List Nat
  contentType : String
  contentDisposition : String
deriving DecidableEq, Repr

/-- def handle_profile(request), lines 14-20 of fastapi.py: evaluates
p = profile() — a call with zero positional arguments — and on success wraps
p in a Response with octet-stream content type and the suggested filename
profile.  The request carries no argument to the call. -/
def handle_profile (ext : Int → List Nat) : Except PyError HttpResponse :=
  match bindProfileCall none none with
  | .typeError msg => .error (.typeError msg)
  | .bound d =>
      .ok { body := (profileEndpoint ext d).2,
            contentType := "application/octet-stream",
            contentDisposition := "attachment; filename=\"profile\"" }

/-- CPython str.join: sep.join(parts) concatenates parts with sep between
consecutive elements and nothing before the first or after the last. -/
def strJoin (sep : String) : List String → String
  | [] => ""
  | [a] => a
  | a :: rest => a ++ sep ++ strJoin sep rest

/-- def cmdline(self), lines 85-88 of net_http.py: joins sys.argv with the
NUL character.  (The subsequent encode("utf-8") maps the NUL character to the
single byte 0 and concatenates the encodings characterwise.) -/
def cmdline (argv : List String) : String :=
  strJoin (String.singleton (Char.ofNat 0)) argv

/-! ### Helper lemmas on dicts and joins -/

theorem dictGet_append_right {α β : Type} [DecidableEq α] (d1 d2 : Dict α β)
    (k : α) (h : dictGet d1 k = none) : dictGet (d1 ++ d2) k = dictGet d2 k := by
  induction d1 with
  | nil => rfl
  | cons p rest ih =>
      obtain ⟨k0, v0⟩ := p
      by_cases hk : k0 = k
      · simp [dictGet, hk] at h
      · simp only [dictGet, hk, if_false, List.cons_append] at h ⊢
        exact ih h

theorem dictGet_single_ne {α β : Type} [DecidableEq α] (k0 : α) (v0 : β) (k : α)
    (h : k0 ≠ k) : dictGet [(k0, v0)] k = none := by
  simp [dictGet, h]

theorem dictSet_of_get_none {α β : Type} [DecidableEq α] (d : Dict α β) (k : α)
    (v : β) (h : dictGet d k = none) : dictSet d k v = d ++ [(k, v)] := by
  induction d with
  | nil => rfl
  | cons p rest ih =>
      obtain ⟨k0, v0⟩ := p
      by_cases hk : k0 = k
      · simp [dictGet, hk] at h
      · simp only [dictGet, hk, if_false] at h
        simp [dictSet, hk, ih h]

/-- With pairwise distinct trace keys the aggregation loop never revisits a
key, so every statistic takes the KeyError branch and is appended. -/
theorem foldlM_heapAggStep_nodup (stats : List Stat) (acc : Dict Trace PyTuple)
    (hacc : ∀ s ∈ stats, dictGet acc (statTrace s) = none)
    (hnd : (stats.map statTrace).Nodup) :
    List.foldlM heapAggStep acc stats =
      .ok (acc ++ stats.map fun s => (statTrace s, ⟨s.count, s.size⟩)) := by
  induction stats generalizing acc with
  | nil => simp only [List.map_nil, List.append_nil]; rfl
  | cons s rest ih =>
      have h1 : dictGet acc (statTrace s) = none := hacc s (by simp)
      have hstep : heapAggStep acc s =
          .ok (acc ++ [(statTrace s, ⟨s.count, s.size⟩)]) := by
        simp [heapAggStep, h1, dictSet_of_get_none acc (statTrace s) _ h1]
      have hcons : (∀ x ∈ rest, ¬statTrace x = statTrace s) ∧
          (rest.map statTrace).Nodup := by simpa using hnd
      have hne : ∀ s2 ∈ rest, statTrace s ≠ statTrace s2 := by
        intro s2 hs2 hEq
        exact hcons.1 s2 hs2 hEq.symm
      have hacc2 : ∀ s2 ∈ rest,
          dictGet (acc ++ [(statTrace s, ⟨s.count, s.size⟩)]) (statTrace s2) = none := by
        intro s2 hs2
        rw [dictGet_append_right _ _ _ (hacc s2 (List.mem_cons_of_mem s hs2))]
        exact dictGet_single_ne _ _ _ (hne s2 hs2)
      calc List.foldlM heapAggStep acc (s :: rest)
      _ = List.foldlM heapAggStep (acc ++ [(statTrace s, ⟨s.count, s.size⟩)]) rest := by
        simp only [List.foldlM, hstep]
        rfl
      _ = .ok ((acc ++ [(statTrace s, ⟨s.count, s.size⟩)]) ++
            rest.map fun s2 => (statTrace s2, ⟨s2.count, s2.size⟩)) :=
        ih _ hacc2 hcons.2
      _ = .ok (acc ++ (s :: rest).map fun s2 => (statTrace s2, ⟨s2.count, s2.size⟩)) := by
        simp [List.append_assoc]

theorem heapAggregate_of_nodup (stats : List Stat)
    (hnd : (stats.map statTrace).Nodup) :
    heapAggregate stats = .ok (stats.map fun s => (statTrace s, ⟨s.count, s.size⟩)) := by
  simpa using foldlM_heapAggStep_nodup stats [] (fun s _ => rfl) hnd

theorem build_heap_pprof_of_nodup (snap : Snapshot)
    (hnd : (snap.stats.map statTrace).Nodup) :
    build_heap_pprof snap =
      .ok (emit { samples := snap.stats.map fun s => (statTrace s, ⟨s.count, s.size⟩),
                  sampleTypeName := "HEAP", unit := "bytes",
                  period := snap.sample_rate, periodType := 1 }) := by
  unfold build_heap_pprof
  rw [heapAggregate_of_nodup snap.stats hnd]
  rfl

theorem strJoin_data (sep : String) (l : List String) :
    (strJoin sep l).data = List.intercalate sep.data (l.map String.data) := by
  induction l with
  | nil => simp [strJoin, List.intercalate]
  | cons a rest ih =>
      cases rest with
      | nil => simp [strJoin, List.intercalate]
      | cons b t =>
          simp only [strJoin, String.data_append, ih, List.map_cons,
            List.intercalate, List.intersperse_cons₂, List.flatten_cons,
            List.append_assoc]

/-! ### Claims -/

/-- Claim C1: the spec states that two raw samples with identical traces merge
into one aggregated sample whose count and bytes are the component-wise sums
(counts 3 and 2 with bytes 100 and 50 giving count 5 and bytes 150).  The code
stores each measurement pair as an immutable Python tuple, and its merge path
performs item assignment on that tuple while catching only KeyError, so on
exactly this input build_heap_pprof raises TypeError instead of merging. -/
theorem build_heap_pprof_duplicate_trace_raises :
    build_heap_pprof
      { stats := [{ traceback := [{ name := "f", filename := "file.py",
                                    firstlineno := 1, lineno := 2 }],
                    count := 3, size := 100 },
                  { traceback := [{ name := "f", filename := "file.py",
                                    firstlineno := 1, lineno := 2 }],
                    count := 2, size := 50 }],
        sample_rate := 128 } =
      .error (.typeError "tuple object does not support item assignment") := rfl

/-- Claim C8: raw samples whose traces differ in at least one frame field stay
two distinct aggregated samples, each keeping its own measurements; they are
never merged. -/
theorem heapAggregate_distinct_traces (s1 s2 : Stat)
    (h : statTrace s1 ≠ statTrace s2) :
    heapAggregate [s1, s2] =
      .ok [(statTrace s1, ⟨s1.count, s1.size⟩), (statTrace s2, ⟨s2.count, s2.size⟩)] := by
  simpa using heapAggregate_of_nodup [s1, s2] (by simp [h])

/-- Claim C8 witness: two stats whose single frames agree except for the
current line number stay distinct. -/
theorem heapAggregate_distinct_traces_witness :
    heapAggregate
      [{ traceback := [{ name := "f", filename := "file.py",
                         firstlineno := 1, lineno := 2 }], count := 3, size := 100 },
       { traceback := [{ name := "f", filename := "file.py",
                         firstlineno := 1, lineno := 3 }], count := 2, size := 50 }] =
      .ok [([{ name := "f", filename := "file.py", firstlineno := 1, lineno := 2 }],
             ⟨3, 100⟩),
           ([{ name := "f", filename := "file.py", firstlineno := 1, lineno := 3 }],
             ⟨2, 50⟩)] :=
  heapAggregate_distinct_traces _ _ (by decide)

/-- Claim C3 counterexample: at the concrete non-positive duration 0 neither
endpoint fails before a sampling resource is touched — the CPU endpoint
constructs a CPUProfiler and invokes its sampler with the unvalidated
duration, and the wall endpoint invokes the shared WallProfiler; the module
contains no InvalidDuration check at all. -/
theorem duration_zero_touches_sampler :
    (profileEndpoint (fun _ => []) 0).1 =
      [Effect.newCPUProfiler, Effect.cpuProfile 0] ∧
    (wallEndpoint (fun _ => []) 0).1 = [Effect.wallProfile 0] :=
  ⟨rfl, rfl⟩

/-- Claim C3 amended: for every non-positive requested duration the CPU and
wall endpoints perform no duration validation: each touches its sampling
resource unconditionally and forwards the duration unchanged to the external
zprofile sampler, returning whatever the sampler returns. -/
theorem duration_forwarded_unvalidated (ext : Int → List Nat) (d : Int)
    (h : d ≤ 0) :
    (profileEndpoint ext d).1 = [Effect.newCPUProfiler, Effect.cpuProfile d] ∧
    (profileEndpoint ext d).2 = ext d ∧
    (wallEndpoint ext d).1 = [Effect.wallProfile d] ∧
    (wallEndpoint ext d).2 = ext d :=
  ⟨rfl, rfl, rfl, rfl⟩

/-- Claim C3 amended witness: concrete instance at duration -1. -/
theorem duration_forwarded_unvalidated_witness :
    ((-1 : Int) ≤ 0) ∧
    ((profileEndpoint (fun _ => [7]) (-1)).1 =
        [Effect.newCPUProfiler, Effect.cpuProfile (-1)] ∧
      (profileEndpoint (fun _ => [7]) (-1)).2 = [7] ∧
      (wallEndpoint (fun _ => [7]) (-1)).1 = [Effect.wallProfile (-1)] ∧
      (wallEndpoint (fun _ => [7]) (-1)).2 = [7]) :=
  ⟨by decide, duration_forwarded_unvalidated (fun _ => [7]) (-1) (by decide)⟩

/-- Claim C4: a heap request while the tracer is unavailable or inactive
answers 412 via send_error — a precondition-failed response, never an empty
profile and never an uncaught crash — and with the tracer active the same
request succeeds with the emitted profile bytes.  The success branch assumes
the snapshot statistics carry pairwise distinct traces, which statistics
grouped by traceback provide. -/
theorem heap_tracing_precondition (has_mprofile is_tracing : Bool)
    (snap : Snapshot) (run_gc : Bool) :
    (has_mprofile = false ∨ is_tracing = false →
      (heap has_mprofile is_tracing snap run_gc).2 =
        .httpError 412 (if has_mprofile then "Heap profiling is not enabled"
          else "mprofile must be installed to enable heap profiling")) ∧
    (has_mprofile = true → is_tracing = true →
      (snap.stats.map statTrace).Nodup →
      (heap has_mprofile is_tracing snap run_gc).2 =
        .ok (emit { samples := snap.stats.map fun s => (statTrace s, ⟨s.count, s.size⟩),
                    sampleTypeName := "HEAP", unit := "bytes",
                    period := snap.sample_rate, periodType := 1 })) := by
  constructor
  · rintro (rfl | rfl)
    · simp [heap]
    · cases has_mprofile <;> simp [heap]
  · rintro rfl rfl hnd
    simp [heap, build_heap_pprof_of_nodup snap hnd]

/-- Claim C4 witness: with the tracer inactive the response is the 412
precondition failure; with it active the same request returns the emitted
profile bytes. -/
theorem heap_tracing_precondition_witness :
    (heap true false { stats := [], sample_rate := 4096 } false).2 =
      HeapResult.httpError 412 "Heap profiling is not enabled" ∧
    (heap true true
        { stats := [{ traceback := [{ name := "f", filename := "file.py",
                                      firstlineno := 1, lineno := 2 }],
                      count := 3, size := 100 }],
          sample_rate := 4096 } false).2 =
      HeapResult.ok (emit
        { samples := [([{ name := "f", filename := "file.py",
                          firstlineno := 1, lineno := 2 }], ⟨3, 100⟩)],
          sampleTypeName := "HEAP", unit := "bytes",
          period := 4096, periodType := 1 }) := by
  constructor
  · exact (heap_tracing_precondition true false
      { stats := [], sample_rate := 4096 } false).1 (Or.inr rfl)
  · exact (heap_tracing_precondition true true _ false).2 rfl rfl (by simp)

/-- Claim C9: with run_gc true the garbage collection effect comes first, ahead
of the mprofile availability and tracing checks, so it occurs even when the
request then fails with the 412 precondition error. -/
theorem heap_gc_collect_precedes_checks (has_mprofile is_tracing : Bool)
    (snap : Snapshot) :
    ((heap has_mprofile is_tracing snap true).1).head? = some Effect.gcCollect ∧
    (has_mprofile = false ∨ is_tracing = false →
      (heap has_mprofile is_tracing snap true).1 = [Effect.gcCollect] ∧
      (heap has_mprofile is_tracing snap true).2 =
        .httpError 412 (if has_mprofile then "Heap profiling is not enabled"
          else "mprofile must be installed to enable heap profiling")) := by
  constructor
  · cases has_mprofile with
    | false => simp [heap]
    | true =>
        cases is_tracing with
        | false => simp [heap]
        | true => cases hb : build_heap_pprof snap <;> simp [heap, hb]
  · rintro (rfl | rfl)
    · simp [heap]
    · cases has_mprofile <;> simp [heap]

/-- Claim C9 witness: with mprofile present but tracing disabled and run_gc
true, the collection effect is performed and the response is the 412 error. -/
theorem heap_gc_collect_precedes_checks_witness :
    ((heap true false { stats := [], sample_rate := 1 } true).1).head? =
      some Effect.gcCollect ∧
    (heap true false { stats := [], sample_rate := 1 } true).1 =
      [Effect.gcCollect] ∧
    (heap true false { stats := [], sample_rate := 1 } true).2 =
      HeapResult.httpError 412 "Heap profiling is not enabled" := by
  have h := heap_gc_collect_precedes_checks true false { stats := [], sample_rate := 1 }
  exact ⟨h.1, (h.2 (Or.inr rfl)).1, (h.2 (Or.inr rfl)).2⟩

/-- Claim C6: for every argument vector the cmdline endpoint returns exactly
the arguments joined by single NUL characters, with no trailing NUL; the
subsequent utf-8 encoding maps each NUL character to the single byte 0. -/
theorem cmdline_nul_joined (argv : List String) :
    (cmdline argv).data = List.intercalate [Char.ofNat 0] (argv.map String.data) := by
  simpa using strJoin_data (String.singleton (Char.ofNat 0)) argv

/-- Claim C7: the spec states that a request to the CPU profile endpoint with
no duration samples for the default 30 seconds and answers octet-stream bytes
with suggested filename profile.  The fastapi handler calls profile() without
the required positional self parameter, so every request raises TypeError
before any sampling; the default binding itself is indeed 30 once self is
supplied. -/
theorem handle_profile_raises_type_error (ext : Int → List Nat) :
    handle_profile ext =
      .error (.typeError "profile missing 1 required positional argument self") ∧
    bindProfileCall (some ()) none = .bound 30 :=
  ⟨rfl, rfl⟩

/-- Claim C10: the thread endpoint never reads its debug flag, so for a fixed
set of running threads the result with debug true equals the result with
debug false. -/
theorem thread_ignores_debug (take_snapshot_bytes : List Nat) :
    thread take_snapshot_bytes true = thread take_snapshot_bytes false := rfl

end Pypprof
